import Mathlib

/-
Verification of the deterministic coroutine core of the cadence-go-client
repository, as exercised by the workflow unit tests in
src/internal/local_dispatcher_mock.go.  The repository excerpt under src/
contains the test workflows (splitJoinActivityWorkflow, signalWorkflowTest,
the WaitGroup tests, the corrupted-signal tests, and so on) but not the
dispatcher / channel / selector / future / wait-group implementations
themselves; those primitives are modelled here from the specification
(spec.md sections 4.1-4.7), while the workflow bodies and the concrete
values they exchange are translated from the source test file.
-/

namespace CadenceCore

/-- Modelled from the spec (section 4.3): payloads delivered into channels are
untyped at the wire; a receiver declares an expected shape.  We represent the
shapes occurring in the source tests: plain strings, the test `message` struct
(its Value field), integers and the unit struct. -/
inductive Val where
  | str (s : String)
  | msg (s : String)
  | int (n : Int)
  | unitV
deriving DecidableEq

/-- Declared payload shapes carried by a typed channel's receive side. -/
inductive Ty where
  | str
  | msg
  | int
  | unitT
deriving DecidableEq

/-- Shape of a payload value. -/
def Val.ty : Val → Ty
  | .str _ => .str
  | .msg _ => .msg
  | .int _ => .int
  | .unitV => .unitT

/-- Modelled from the spec (section 3): a Channel is Open or Closed and holds
an ordered buffer of pending values. -/
structure Chan where
  buffer : List Val
  closed : Bool
deriving DecidableEq

/-- Modelled from the spec (section 4.3, type-mismatch policy): scanning the
buffer for the next value conforming to the declared shape.  Every
non-conforming value encountered is discarded and counted as one
corrupted-payload metrics emission.  Returns the conforming value found (if
any), the remaining buffer, and the number of corrupted emissions. -/
def drainCorrupt (t : Ty) : List Val → Option Val × List Val × Nat
  | [] => (none, [], 0)
  | v :: rest =>
    if v.ty = t then (some v, rest, 0)
    else
      match drainCorrupt t rest with
      | (r, b, n) => (r, b, n + 1)

/-- Modelled from the spec (section 4.3): non-blocking receive.  Returns the
received value (none when nothing conforming is available), the channel after
the operation, and the corrupted-payload count emitted. -/
def receiveAsync (t : Ty) (ch : Chan) : Option Val × Chan × Nat :=
  match drainCorrupt t ch.buffer with
  | (r, b, n) => (r, { ch with buffer := b }, n)

/-- Modelled from the spec (section 4.3): non-blocking send appends to the
buffer of an open channel; a send on a closed channel is a programming error
and queues nothing. -/
def sendAsync (ch : Chan) (v : Val) : Chan :=
  if ch.closed then ch else { ch with buffer := ch.buffer ++ [v] }

/-- Outcome of a blocking receive at the moment it is issued. -/
inductive RecvRes where
  | got (v : Val) (ch : Chan) (corrupted : Nat)
  | closedEmpty (ch : Chan) (corrupted : Nat)
  | blockedRecv (ch : Chan) (corrupted : Nat)
deriving DecidableEq

/-- The `more` flag a completed receive reports to workflow code. -/
def RecvRes.more : RecvRes → Bool
  | .got _ _ _ => true
  | _ => false

/-- Whether the receive left the caller blocked. -/
def RecvRes.isBlocked : RecvRes → Bool
  | .blockedRecv _ _ => true
  | _ => false

/-- The value written into the receiver's output slot, none when unset. -/
def RecvRes.out : RecvRes → Option Val
  | .got v _ _ => some v
  | _ => none

/-- Modelled from the spec (section 4.3): blocking receive.  It takes the next
conforming value if one exists (discarding and counting malformed ones); on an
empty, closed channel it returns more=false without blocking; otherwise the
caller blocks. -/
def chanReceive (t : Ty) (ch : Chan) : RecvRes :=
  match drainCorrupt t ch.buffer with
  | (some v, b, n) => .got v { ch with buffer := b } n
  | (none, b, n) =>
    if ch.closed then .closedEmpty { ch with buffer := b } n
    else .blockedRecv { ch with buffer := b } n

/-- The body of receiveAsyncCorruptSignalWorkflowTest from the source: send a
malformed string into a channel expecting the message shape, receive (ok is
false, value dropped, one metric), send another malformed string followed by a
well-typed message, receive again (ok is true).  Returns the workflow result
list together with the total corrupted-signals counter value. -/
def receiveAsyncCorruptSignalRun : List Val × Nat :=
  let ch : Chan := ⟨[], false⟩
  let ch := sendAsync ch (Val.str "wrong")
  match receiveAsync Ty.msg ch with
  | (r1, ch, n1) =>
    let res1 : List Val := match r1 with | some v => [v] | none => []
    let ch := sendAsync ch (Val.str "wrong again")
    let ch := sendAsync ch (Val.msg "the right interface")
    match receiveAsync Ty.msg ch with
    | (r2, _, n2) =>
      let res2 : List Val := match r2 with | some v => res1 ++ [v] | none => res1
      (res2, n1 + n2)

/-- The body of receiveCorruptSignalOnClosedChannelWorkflowTest from the
source: close the signal channel, then issue a blocking receive; the workflow
records the string form of the returned `more` flag. -/
def receiveCorruptSignalOnClosedChannelRun : List Val :=
  let ch : Chan := ⟨[], false⟩
  let ch : Chan := { ch with closed := true }
  let r := chanReceive Ty.msg ch
  [Val.msg (if r.more then "true" else "false")]

theorem drainCorrupt_replicate_bad (t : Ty) (bad : Val) (hbad : bad.ty ≠ t)
    (g : Val) (hg : g.ty = t) :
    ∀ n : Nat, drainCorrupt t (List.replicate n bad ++ [g]) = (some g, [], n) := by
  intro n
  induction n with
  | zero => simp [drainCorrupt, hg]
  | succ k ih => simp [List.replicate, drainCorrupt, hbad, ih]

theorem drainCorrupt_none_of_all_malformed (t : Ty) :
    ∀ buf : List Val, (∀ v ∈ buf, v.ty ≠ t) → (drainCorrupt t buf).1 = none := by
  intro buf
  induction buf with
  | nil => intro _; rfl
  | cons v rest ih =>
    intro h
    have hv : v.ty ≠ t := h v (List.Mem.head _)
    have hr : (drainCorrupt t rest).1 = none := ih (fun w hw => h w (List.Mem.tail _ hw))
    rcases hdc : drainCorrupt t rest with ⟨r, b, n⟩
    rw [hdc] at hr
    simp only at hr
    simp [drainCorrupt, hv, hdc, hr]

/-- Claim C4: delivering payloads of the wrong shape to a typed channel never
fails the workflow: each of the n malformed deliveries increments the
corrupted-signal counter by exactly one (total exactly n), the malformed
values are discarded, and a subsequently delivered well-typed payload is
received normally by the same receiver; moreover the source scenario
(receiveAsyncCorruptSignalWorkflowTest) yields exactly the well-typed message
and a counter value of 2. -/
theorem corrupted_payload_counted_and_skipped (n : Nat) (bad : Val) (s : String)
    (hbad : bad.ty ≠ Ty.msg) :
    receiveAsync Ty.msg ⟨List.replicate n bad ++ [Val.msg s], false⟩ =
      (some (Val.msg s), ⟨[], false⟩, n) ∧
    receiveAsyncCorruptSignalRun = ([Val.msg "the right interface"], 2) := by
  constructor
  · have h := drainCorrupt_replicate_bad Ty.msg bad hbad (Val.msg s) rfl n
    simp [receiveAsync, h]
  · rfl

theorem corrupted_payload_counted_and_skipped_witness :
    (Val.str "wrong").ty ≠ Ty.msg ∧
    (receiveAsync Ty.msg ⟨List.replicate 2 (Val.str "wrong") ++ [Val.msg "the right interface"], false⟩ =
      (some (Val.msg "the right interface"), ⟨[], false⟩, 2) ∧
     receiveAsyncCorruptSignalRun = ([Val.msg "the right interface"], 2)) :=
  ⟨by decide, corrupted_payload_counted_and_skipped 2 (Val.str "wrong") "the right interface" (by decide)⟩

/-- Claim C5: once a channel is closed and its buffer holds no conforming
value, every receive (including a blocking receive issued after the close)
returns more=false without blocking and leaves the output slot unset; the
source scenario (receiveCorruptSignalOnClosedChannelWorkflowTest) completes
with the single recorded value "false". -/
theorem receive_on_closed_drained_returns_no_more (t : Ty) (ch : Chan)
    (hclosed : ch.closed = true)
    (hmal : ∀ v ∈ ch.buffer, v.ty ≠ t) :
    (chanReceive t ch).more = false ∧
    (chanReceive t ch).isBlocked = false ∧
    (chanReceive t ch).out = none ∧
    receiveCorruptSignalOnClosedChannelRun = [Val.msg "false"] := by
  have h1 := drainCorrupt_none_of_all_malformed t ch.buffer hmal
  rcases hdc : drainCorrupt t ch.buffer with ⟨r, b, n⟩
  rw [hdc] at h1
  simp only at h1
  subst h1
  refine ⟨?_, ?_, ?_, rfl⟩ <;>
    simp [chanReceive, hdc, hclosed, RecvRes.more, RecvRes.isBlocked, RecvRes.out]

theorem receive_on_closed_drained_returns_no_more_witness :
    ((⟨[Val.str "wrong"], true⟩ : Chan).closed = true ∧
     (∀ v ∈ (⟨[Val.str "wrong"], true⟩ : Chan).buffer, v.ty ≠ Ty.msg)) ∧
    ((chanReceive Ty.msg ⟨[Val.str "wrong"], true⟩).more = false ∧
     (chanReceive Ty.msg ⟨[Val.str "wrong"], true⟩).isBlocked = false ∧
     (chanReceive Ty.msg ⟨[Val.str "wrong"], true⟩).out = none ∧
     receiveCorruptSignalOnClosedChannelRun = [Val.msg "false"]) :=
  ⟨⟨rfl, by decide⟩,
   receive_on_closed_drained_returns_no_more Ty.msg ⟨[Val.str "wrong"], true⟩ rfl (by decide)⟩

/-- Modelled from the spec (sections 4.1, 7, design notes): a coroutine panic
is captured with its message and a call stack naming the panicking workflow
function. -/
structure PanicError where
  message : String
  stack : List String
deriving DecidableEq

/-- Top-level execution result exposed to collaborators (spec section 6):
Completed(result), Failed(error-with-stack) or AwaitingExternalInput. -/
inductive ExecStatus where
  | completed (v : Val)
  | failed (e : PanicError)
  | awaiting
deriving DecidableEq

/-- Stack of the terminal error of a failed execution (empty otherwise). -/
def ExecStatus.stackOf : ExecStatus → List String
  | .failed e => e.stack
  | _ => []

/-- Modelled from the spec (sections 3, 4.6): a WaitGroup is a signed counter
plus at most one blocked waiter. -/
structure WaitGroup where
  counter : Int
  waiting : Bool
deriving DecidableEq

/-- Modelled from the spec (section 4.6): add increases the counter; driving
it negative is a fatal coroutine panic with the literal message. -/
def WaitGroup.add (wg : WaitGroup) (delta : Int) : Except String WaitGroup :=
  let c := wg.counter + delta
  if c < 0 then Except.error "negative WaitGroup counter"
  else Except.ok { wg with counter := c }

/-- done decrements the counter by one. -/
def WaitGroup.done (wg : WaitGroup) : Except String WaitGroup := wg.add (-1)

/-- Result of a wait call that did not panic: the caller proceeds
immediately, or blocks as the single outstanding waiter. -/
inductive WaitRes where
  | proceed (wg : WaitGroup)
  | blockWait (wg : WaitGroup)
deriving DecidableEq

/-- Modelled from the spec (section 4.6): wait panics when a previous wait
from a different coroutine is still outstanding (single-waiter invariant),
returns at a zero counter, and otherwise blocks the caller. -/
def WaitGroup.wait (wg : WaitGroup) : Except String WaitRes :=
  if wg.waiting then Except.error "WaitGroup is reused before previous Wait has returned"
  else if wg.counter = 0 then Except.ok (.proceed wg)
  else Except.ok (.blockWait { wg with waiting := true })

/-- The execution of waitGroupNegativeCounterPanicsWorkflowTest from the
source, scheduled per the spec's dispatcher rules: the root coroutine creates
the WaitGroup (counter 0), spawns the child and calls Wait, which returns at
once; the dispatcher then runs the child, whose Done drives the counter
negative; the resulting panic is captured with a stack naming the workflow
function and becomes the execution's terminal error. -/
def waitGroupNegativeCounterPanicsRun : ExecStatus :=
  let stackTrace := ["cadence/internal.waitGroupNegativeCounterPanicsWorkflowTest"]
  let wg : WaitGroup := ⟨0, false⟩
  match wg.wait with
  | .error m => .failed ⟨m, stackTrace⟩
  | .ok (.blockWait _) => .awaiting
  | .ok (.proceed wg1) =>
    match wg1.done with
    | .error m => .failed ⟨m, stackTrace⟩
    | .ok _ => .completed (Val.int 0)

/-- The execution of waitGroupMultipleConcurrentWaitsPanicsWorkflowTest from
the source: Add(2); the root's Wait blocks as the outstanding waiter; the
first child's Done brings the counter to 1; the second child's Wait is then
issued while the root's Wait has not returned, which panics. -/
def waitGroupConcurrentWaitsRun : ExecStatus :=
  let stackTrace := ["cadence/internal.waitGroupMultipleConcurrentWaitsPanicsWorkflowTest"]
  let wg : WaitGroup := ⟨0, false⟩
  match wg.add 2 with
  | .error m => .failed ⟨m, stackTrace⟩
  | .ok wg1 =>
    match wg1.wait with
    | .error m => .failed ⟨m, stackTrace⟩
    | .ok (.proceed _) => .completed (Val.int 0)
    | .ok (.blockWait wg2) =>
      match wg2.done with
      | .error m => .failed ⟨m, stackTrace⟩
      | .ok wg3 =>
        match wg3.wait with
        | .error m => .failed ⟨m, stackTrace⟩
        | .ok _ => .completed (Val.int 0)

/-- Claim C2: a done() call that drives the WaitGroup counter below zero
always produces a fatal panic whose message is exactly "negative WaitGroup
counter"; in the source scenario the captured stack names the workflow
function and the execution terminates with that PanicError. -/
theorem waitGroup_negative_counter_panics (wg : WaitGroup) (h : wg.counter - 1 < 0) :
    wg.done = Except.error "negative WaitGroup counter" ∧
    waitGroupNegativeCounterPanicsRun =
      ExecStatus.failed ⟨"negative WaitGroup counter",
        ["cadence/internal.waitGroupNegativeCounterPanicsWorkflowTest"]⟩ ∧
    "cadence/internal.waitGroupNegativeCounterPanicsWorkflowTest" ∈
      waitGroupNegativeCounterPanicsRun.stackOf := by
  refine ⟨?_, rfl, by decide⟩
  have h2 : wg.counter + (-1) < 0 := by omega
  simp [WaitGroup.done, WaitGroup.add, h2]

theorem waitGroup_negative_counter_panics_witness :
    ((⟨0, false⟩ : WaitGroup).counter - 1 < 0) ∧
    ((⟨0, false⟩ : WaitGroup).done = Except.error "negative WaitGroup counter" ∧
     waitGroupNegativeCounterPanicsRun =
       ExecStatus.failed ⟨"negative WaitGroup counter",
         ["cadence/internal.waitGroupNegativeCounterPanicsWorkflowTest"]⟩ ∧
     "cadence/internal.waitGroupNegativeCounterPanicsWorkflowTest" ∈
       waitGroupNegativeCounterPanicsRun.stackOf) :=
  ⟨by decide, waitGroup_negative_counter_panics ⟨0, false⟩ (by decide)⟩

/-- Claim C3: invoking wait() while a previous wait() from a different
coroutine is still blocked always produces a fatal panic whose message is
exactly "WaitGroup is reused before previous Wait has returned"; the source
scenario terminates with that PanicError, whose stack names the workflow
function. -/
theorem waitGroup_concurrent_wait_panics (wg : WaitGroup) (h : wg.waiting = true) :
    wg.wait = Except.error "WaitGroup is reused before previous Wait has returned" ∧
    waitGroupConcurrentWaitsRun =
      ExecStatus.failed ⟨"WaitGroup is reused before previous Wait has returned",
        ["cadence/internal.waitGroupMultipleConcurrentWaitsPanicsWorkflowTest"]⟩ ∧
    "cadence/internal.waitGroupMultipleConcurrentWaitsPanicsWorkflowTest" ∈
      waitGroupConcurrentWaitsRun.stackOf := by
  refine ⟨?_, rfl, by decide⟩
  simp [WaitGroup.wait, h]

theorem waitGroup_concurrent_wait_panics_witness :
    ((⟨1, true⟩ : WaitGroup).waiting = true) ∧
    ((⟨1, true⟩ : WaitGroup).wait =
       Except.error "WaitGroup is reused before previous Wait has returned" ∧
     waitGroupConcurrentWaitsRun =
       ExecStatus.failed ⟨"WaitGroup is reused before previous Wait has returned",
         ["cadence/internal.waitGroupMultipleConcurrentWaitsPanicsWorkflowTest"]⟩ ∧
     "cadence/internal.waitGroupMultipleConcurrentWaitsPanicsWorkflowTest" ∈
       waitGroupConcurrentWaitsRun.stackOf) :=
  ⟨rfl, waitGroup_concurrent_wait_panics ⟨1, true⟩ rfl⟩

/-- Modelled from the spec (section 4.7): a cancellation scope carries a
boolean canceled flag. -/
structure CancelScope where
  canceled : Bool
deriving DecidableEq

/-- Settlement state of a future (spec section 3): pending, resolved, or
settled with a cancellation error. -/
inductive FState where
  | pending
  | resolved
  | canceledF
deriving DecidableEq

/-- A Sleep/Timer is modelled as a future bound to a cancellation scope
(spec section 4.2). -/
structure TimerFuture where
  state : FState
deriving DecidableEq

/-- Modelled from the spec (section 4.7): a blocking primitive invoked against
an already-canceled scope carries the cancellation error from the start. -/
def newTimer (sc : CancelScope) : TimerFuture :=
  if sc.canceled then ⟨.canceledF⟩ else ⟨.pending⟩

/-- Modelled from the spec (section 4.5): canceling the scope of a pending
future settles it with a cancellation error; a settled future is unaffected. -/
def cancelTimerScope (f : TimerFuture) : TimerFuture :=
  if f.state = .pending then ⟨.canceledF⟩ else f

/-- The host collaborator resolves the timer at its logical deadline. -/
def fireTimer (f : TimerFuture) : TimerFuture :=
  if f.state = .pending then ⟨.resolved⟩ else f

/-- Outcome of a get issued now: the normal result, a cancellation error
returned without blocking, or the caller blocks. -/
inductive GetRes where
  | okGet
  | canceledErr
  | blocks
deriving DecidableEq

/-- Modelled from the spec (sections 4.5, 4.7): get returns the stored outcome
of a settled future immediately and blocks on a pending one. -/
def TimerFuture.getNow (f : TimerFuture) : GetRes :=
  match f.state with
  | .resolved => .okGet
  | .canceledF => .canceledErr
  | .pending => .blocks

/-- The four phases of testTimerWorkflow.Execute from the source: a timer that
fires and wakes a selector; a timer whose scope is canceled before Get; a
Sleep that fires normally; a Sleep invoked on an already-canceled scope.
Returns (isWokeByTimer, err2, err3, err4). -/
def testTimerWorkflowRun : Bool × GetRes × GetRes × GetRes :=
  let t1 := fireTimer (newTimer ⟨false⟩)
  let isWokeByTimer := decide (t1.getNow = GetRes.okGet)
  let t2 := cancelTimerScope (newTimer ⟨false⟩)
  let t3 := fireTimer (newTimer ⟨false⟩)
  let t4 := newTimer ⟨true⟩
  (isWokeByTimer, t2.getNow, t3.getNow, t4.getNow)

/-- Claim C6: a coroutine blocked on a Future get or Sleep whose scope is then
canceled unblocks with a cancellation error instead of its normal result, and
a blocking primitive invoked against an already-canceled scope returns the
cancellation error immediately without blocking; the source scenario
(testTimerWorkflow.Execute) observes exactly (woken-by-timer, canceled, ok,
canceled). -/
theorem cancellation_unblocks_and_preempts (f : TimerFuture) (sc : CancelScope)
    (hf : f.state = FState.pending) (hsc : sc.canceled = true) :
    f.getNow = GetRes.blocks ∧
    (cancelTimerScope f).getNow = GetRes.canceledErr ∧
    (newTimer sc).getNow = GetRes.canceledErr ∧
    testTimerWorkflowRun = (true, GetRes.canceledErr, GetRes.okGet, GetRes.canceledErr) := by
  refine ⟨?_, ?_, ?_, rfl⟩
  · simp [TimerFuture.getNow, hf]
  · simp [cancelTimerScope, hf, TimerFuture.getNow]
  · simp [newTimer, hsc, TimerFuture.getNow]

theorem cancellation_unblocks_and_preempts_witness :
    ((⟨FState.pending⟩ : TimerFuture).state = FState.pending ∧
     (⟨true⟩ : CancelScope).canceled = true) ∧
    ((⟨FState.pending⟩ : TimerFuture).getNow = GetRes.blocks ∧
     (cancelTimerScope ⟨FState.pending⟩).getNow = GetRes.canceledErr ∧
     (newTimer ⟨true⟩).getNow = GetRes.canceledErr ∧
     testTimerWorkflowRun = (true, GetRes.canceledErr, GetRes.okGet, GetRes.canceledErr)) :=
  ⟨⟨rfl, rfl⟩, cancellation_unblocks_and_preempts ⟨FState.pending⟩ ⟨true⟩ rfl rfl⟩

/-- Program counter of the stale child coroutine in
Test_StaleGoroutinesAreShutDown: blocked in its hour-long Sleep, resumed past
the Sleep (which must never happen once the execution is over), finished
normally, or reaped by the dispatcher. -/
inductive StaleChildPC where
  | sleeping
  | ranAfter
  | reaped
deriving DecidableEq

/-- State of the stale-coroutine scenario: the child's program counter, the
cleanup functions it registered with defer, those that actually ran, whether
the code after its Sleep ran, and whether the root coroutine completed. -/
structure StaleState where
  childPC : StaleChildPC
  cleanupsRegistered : List String
  cleanupsRan : List String
  afterRun : Bool
  rootCompleted : Bool
deriving DecidableEq

/-- Initial state of the scenario from the source: the child has registered
its deferred close and is blocked in Sleep for an hour; the root is blocked in
its one-minute Sleep. -/
def staleInit : StaleState :=
  ⟨.sleeping, ["close deferred"], [], false, false⟩

/-- The root's one-minute Sleep fires and the root coroutine returns. -/
def rootSleepFires (s : StaleState) : StaleState :=
  { s with rootCompleted := true }

/-- The natural continuation the child would take if its Sleep ever resolved:
run the code after the blocking point, then return, running its cleanups.
This transition is never taken once the owning execution has completed. -/
def childSleepFires (s : StaleState) : StaleState :=
  if s.childPC == StaleChildPC.sleeping then
    { s with childPC := StaleChildPC.ranAfter, afterRun := true,
             cleanupsRan := s.cleanupsRegistered }
  else s

/-- Modelled from the spec (section 4.1): once the root coroutine has
completed, the dispatcher injects a cancellation into each still-blocked
coroutine and discards it; the unwind runs the coroutine's deferred cleanup
functions and never executes the code after its blocking point. -/
def reapStale (s : StaleState) : StaleState :=
  if s.rootCompleted && s.childPC == StaleChildPC.sleeping then
    { s with childPC := StaleChildPC.reaped, cleanupsRan := s.cleanupsRegistered }
  else s

/-- The scenario of Test_StaleGoroutinesAreShutDown: the root completes, then
the bounded asynchronous cleanup pass reaps the child still blocked in
Sleep. -/
def staleGoroutinesRun : StaleState :=
  reapStale (rootSleepFires staleInit)

/-- Claim C8: a coroutine still blocked in Sleep when the root coroutine
completes is reaped in the bounded cleanup pass that follows completion: its
deferred cleanup functions all run, and the code after its blocking point
never runs (reaping never executes it, in any state). -/
theorem staleCoroutine_reaped_cleanups_run_after_never_runs :
    staleGoroutinesRun.childPC = StaleChildPC.reaped ∧
    staleGoroutinesRun.cleanupsRan = staleGoroutinesRun.cleanupsRegistered ∧
    staleGoroutinesRun.afterRun = false ∧
    (∀ s : StaleState, (reapStale s).afterRun = s.afterRun) := by
  refine ⟨rfl, rfl, rfl, ?_⟩
  intro s
  unfold reapStale
  split <;> rfl

/-- The sequence of values delivered on the testSig2 signal channel in
Test_SignalWorkflow. -/
def sig2Queue : List Val :=
  [Val.str "Sig2Value1;", Val.str "Sig2Value2;", Val.str "Sig2Value3;",
   Val.str "Sig2Value4;", Val.str "Sig2Value5;", Val.str "Sig2Value6;",
   Val.str "Sig2Value7;"]

/-- Modelled from the spec (section 4.4): one Select evaluation of a selector
holding a single receive case takes the next available channel value (blocking
while the channel is empty, represented by none). -/
def selectOnceRecv (buf : List Val) : Option Val × List Val :=
  match buf with
  | [] => (none, [])
  | v :: rest => (some v, rest)

/-- k successive select invocations on the same single-receive-case selector:
each is a new independent wait on the channel's current state.  Returns the
values received in order and the remaining channel contents. -/
def selectK : Nat → List Val → List Val × List Val
  | 0, buf => ([], buf)
  | Nat.succ k, buf =>
    match selectOnceRecv buf with
    | (some v, rest) =>
      match selectK k rest with
      | (got, rem) => (v :: got, rem)
    | (none, rest) => ([], rest)

/-- The three consecutive Select calls of signalWorkflowTest on the testSig2
channel. -/
def signalWorkflowSelectorRun : List Val × List Val :=
  selectK 3 sig2Queue

theorem selectK_take_drop (k : Nat) :
    ∀ buf : List Val, k ≤ buf.length → selectK k buf = (buf.take k, buf.drop k) := by
  induction k with
  | zero => intro buf _; simp [selectK]
  | succ k ih =>
    intro buf h
    cases buf with
    | nil => exact absurd h (by simp)
    | cons v rest =>
      have h2 : k ≤ rest.length := Nat.le_of_succ_le_succ h
      simp [selectK, selectOnceRecv, ih rest h2]

/-- Claim C9: a selector is single-use per wait: invoking select k times on a
selector with one receive case performs k independent waits consuming the
first k successive deliveries in order; in particular the three Select calls
of signalWorkflowTest receive the first three testSig2 values. -/
theorem selector_single_use_per_wait (k : Nat) (buf : List Val) (h : k ≤ buf.length) :
    selectK k buf = (buf.take k, buf.drop k) ∧
    signalWorkflowSelectorRun =
      ([Val.str "Sig2Value1;", Val.str "Sig2Value2;", Val.str "Sig2Value3;"],
       [Val.str "Sig2Value4;", Val.str "Sig2Value5;", Val.str "Sig2Value6;",
        Val.str "Sig2Value7;"]) :=
  ⟨selectK_take_drop k buf h, rfl⟩

theorem selector_single_use_per_wait_witness :
    3 ≤ sig2Queue.length ∧
    (selectK 3 sig2Queue = (sig2Queue.take 3, sig2Queue.drop 3) ∧
     signalWorkflowSelectorRun =
       ([Val.str "Sig2Value1;", Val.str "Sig2Value2;", Val.str "Sig2Value3;"],
        [Val.str "Sig2Value4;", Val.str "Sig2Value5;", Val.str "Sig2Value6;",
         Val.str "Sig2Value7;"])) :=
  ⟨by decide, selector_single_use_per_wait 3 sig2Queue (by decide)⟩

/-- The order in which the two activity futures of splitJoinActivityWorkflow
resolve. -/
inductive SJOrder where
  | firstThenSecond
  | secondThenFirst
deriving DecidableEq

/-- Program counter of the root coroutine of splitJoinActivityWorkflow:
before its first blocking point, blocked receiving on c1, past that receive,
blocked in Select on the c2 receive case, or returned. -/
inductive RootPC where
  | rStart
  | rWaitC1
  | rGotC1
  | rSelecting
  | rDone
deriving DecidableEq, BEq

/-- Program counter of the two spawned coroutines: before their first
blocking point, blocked on the activity future's Get, blocked sending on
their channel, finished, or panicked. -/
inductive GoPC where
  | gStart
  | gWaitF
  | gBlockedSend
  | gFinished
  | gPanicked
deriving DecidableEq, BEq

/-- State of the split/join execution: the three coroutines' program counters
(in spawn order: root, first Go, second Go), the two activity futures'
resolution flags, the c1 rendezvous hand-off flag, the two activity results,
the interceptor trace, the testPanic input, the captured panic (if any) and
the root's result (if returned). -/
structure SJState where
  root : RootPC
  g1 : GoPC
  g2 : GoPC
  f1Resolved : Bool
  f2Resolved : Bool
  c1Delivered : Bool
  result1 : String
  result2 : String
  trace : List String
  testPanic : Bool
  panicErr : Option PanicError
  wfResult : Option String
deriving DecidableEq

/-- Interceptor entry appended when the workflow body starts. -/
def sjBeginMsg : String := "ExecuteWorkflow splitJoinActivityWorkflow begin"

/-- Interceptor entry appended when the workflow body returns. -/
def sjEndMsg : String := "ExecuteWorkflow splitJoinActivityWorkflow end"

/-- Interceptor entry appended by each ExecuteActivity call. -/
def sjActMsg : String := "ExecuteActivity testActivityWithOptions"

/-- Whether the root coroutine can make progress: it is runnable at its start,
when the c1 rendezvous value has been handed over or a sender is blocked on
c1, between blocking points, and when the selector's c2 receive case has a
blocked sender (spec sections 4.3 and 4.4). -/
def rootRunnable (s : SJState) : Bool :=
  match s.root with
  | .rStart => true
  | .rWaitC1 => s.c1Delivered || s.g1 == GoPC.gBlockedSend
  | .rGotC1 => true
  | .rSelecting => s.g2 == GoPC.gBlockedSend
  | .rDone => false

/-- The root returns: selected is true, err1 and err2 are nil, so the body
returns result1 + result2 and the interceptor appends the end entry. -/
def finishRoot (s : SJState) : SJState :=
  { s with root := RootPC.rDone,
           trace := s.trace ++ [sjEndMsg],
           wfResult := some (s.result1 ++ s.result2) }

/-- One resumption of the root coroutine, following the body of
splitJoinActivityWorkflow: append the begin entry and block receiving on c1;
complete the c1 rendezvous (releasing a blocked sender if any); evaluate the
selector holding the single c2 receive case, firing its callback when a
sender is blocked on c2 and blocking otherwise. -/
def runRoot (s : SJState) : SJState :=
  match s.root with
  | .rStart => { s with root := RootPC.rWaitC1, trace := s.trace ++ [sjBeginMsg] }
  | .rWaitC1 =>
    if s.c1Delivered then { s with c1Delivered := false, root := RootPC.rGotC1 }
    else if s.g1 == GoPC.gBlockedSend then
      { s with g1 := GoPC.gFinished, root := RootPC.rGotC1 }
    else s
  | .rGotC1 =>
    if s.g2 == GoPC.gBlockedSend then finishRoot { s with g2 := GoPC.gFinished }
    else { s with root := RootPC.rSelecting }
  | .rSelecting =>
    if s.g2 == GoPC.gBlockedSend then finishRoot { s with g2 := GoPC.gFinished }
    else s
  | .rDone => s

/-- Whether the first spawned coroutine can make progress. -/
def g1Runnable (s : SJState) : Bool :=
  match s.g1 with
  | .gStart => true
  | .gWaitF => s.f1Resolved
  | _ => false

/-- One resumption of the first spawned coroutine: ExecuteActivity (appending
its interceptor entry) then block on the future's Get; once resolved, record
the mocked id1 result "Hello" and send on c1 — handing the value straight to
the root when it is blocked receiving, otherwise blocking as a sender. -/
def runG1 (s : SJState) : SJState :=
  match s.g1 with
  | .gStart => { s with g1 := GoPC.gWaitF, trace := s.trace ++ [sjActMsg] }
  | .gWaitF =>
    let t := { s with result1 := "Hello" }
    if t.root == RootPC.rWaitC1 then
      { t with c1Delivered := true, g1 := GoPC.gFinished }
    else { t with g1 := GoPC.gBlockedSend }
  | _ => s

/-- Whether the second spawned coroutine can make progress. -/
def g2Runnable (s : SJState) : Bool :=
  match s.g2 with
  | .gStart => true
  | .gWaitF => s.f2Resolved
  | _ => false

/-- One resumption of the second spawned coroutine: ExecuteActivity then block
on the future's Get; once resolved, record the mocked id2 result " Flow!",
panic with "simulated" when testPanic is set (the dispatcher captures the
panic with a stack naming the workflow function), and otherwise send on c2,
blocking until the selector's receive case consumes the rendezvous. -/
def runG2 (s : SJState) : SJState :=
  match s.g2 with
  | .gStart => { s with g2 := GoPC.gWaitF, trace := s.trace ++ [sjActMsg] }
  | .gWaitF =>
    let t := { s with result2 := " Flow!" }
    if t.testPanic then
      { t with g2 := GoPC.gPanicked,
               panicErr := some ⟨"simulated", ["cadence/internal.splitJoinActivityWorkflow"]⟩ }
    else { t with g2 := GoPC.gBlockedSend }
  | _ => s

/-- Modelled from the spec (section 4.1): the dispatcher resumes the runnable
coroutine with the lowest spawn sequence number. -/
def sjStepOnce (s : SJState) : Option SJState :=
  if rootRunnable s then some (runRoot s)
  else if g1Runnable s then some (runG1 s)
  else if g2Runnable s then some (runG2 s)
  else none

/-- Modelled from the spec (section 4.1): advance repeats the scan until no
coroutine can make further progress (the fuel bounds the scan; every pass of
this machine strictly advances a program counter). -/
def sjAdvance : Nat → SJState → SJState
  | 0, s => s
  | fuel + 1, s =>
    match sjStepOnce s with
    | some t => sjAdvance fuel t
    | none => s

/-- Initial state of splitJoinActivityWorkflow with the given testPanic
input: all three coroutines before their first blocking point, futures
pending, channels empty. -/
def sjInit (tp : Bool) : SJState :=
  { root := RootPC.rStart, g1 := GoPC.gStart, g2 := GoPC.gStart,
    f1Resolved := false, f2Resolved := false, c1Delivered := false,
    result1 := "", result2 := "", trace := [],
    testPanic := tp, panicErr := none, wfResult := none }

/-- External resolution of the first activity future. -/
def resolveF1 (s : SJState) : SJState := { s with f1Resolved := true }

/-- External resolution of the second activity future. -/
def resolveF2 (s : SJState) : SJState := { s with f2Resolved := true }

/-- Full execution of splitJoinActivityWorkflow: run to quiescence, then feed
the two activity resolutions in the given order, advancing after each. -/
def sjRun (tp : Bool) (order : SJOrder) : SJState :=
  let s := sjAdvance 16 (sjInit tp)
  match order with
  | .firstThenSecond => sjAdvance 16 (resolveF2 (sjAdvance 16 (resolveF1 s)))
  | .secondThenFirst => sjAdvance 16 (resolveF1 (sjAdvance 16 (resolveF2 s)))

/-- Top-level status of a split/join execution: a captured coroutine panic is
the terminal error; otherwise the root's returned value, if any. -/
def sjStatus (s : SJState) : ExecStatus :=
  match s.panicErr with
  | some e => .failed e
  | none =>
    match s.wfResult with
    | some r => .completed (Val.str r)
    | none => .awaiting

/-- Claim C1: for every order in which the two activity futures resolve, the
split/join workflow completes with final result exactly "Hello Flow!" and the
interceptor trace is exactly ExecuteWorkflow begin, the two ExecuteActivity
entries, ExecuteWorkflow end. -/
theorem splitJoin_result_and_trace_deterministic (order : SJOrder) :
    sjStatus (sjRun false order) = ExecStatus.completed (Val.str "Hello Flow!") ∧
    (sjRun false order).trace = [sjBeginMsg, sjActMsg, sjActMsg, sjEndMsg] := by
  cases order <;> exact ⟨rfl, rfl⟩

/-- A coroutine body either returns a value or panics with a message. -/
inductive BodyOutcome where
  | okB (v : Val)
  | panicB (m : String)
deriving DecidableEq

/-- Modelled from the spec (section 4.1): a panic inside a coroutine body is
caught at the coroutine boundary and converted into a terminal error value
carrying the panic message and a captured call stack naming the panicking
workflow function. -/
def catchCoroutinePanic (funcName : String) : BodyOutcome → Except PanicError Val
  | .okB v => .ok v
  | .panicB m => .error ⟨m, ["cadence/internal." ++ funcName]⟩

/-- Claim C7: every panic raised inside a coroutine body is caught at the
coroutine boundary and converted into a PanicError carrying the panic's
message and a captured stack naming the workflow function; in the source
scenario (splitJoinActivityWorkflow with testPanic, whose failure reaches the
root) the execution ends as Failed with that PanicError for either future
resolution order, and the run always yields a status value rather than a
crash. -/
theorem coroutine_panic_becomes_terminal_error (fn m : String) (order : SJOrder) :
    catchCoroutinePanic fn (BodyOutcome.panicB m) =
      Except.error ⟨m, ["cadence/internal." ++ fn]⟩ ∧
    sjStatus (sjRun true order) =
      ExecStatus.failed ⟨"simulated", ["cadence/internal.splitJoinActivityWorkflow"]⟩ ∧
    "cadence/internal.splitJoinActivityWorkflow" ∈ (sjStatus (sjRun true order)).stackOf := by
  cases order <;> exact ⟨rfl, rfl, by decide⟩

/-- Modelled from the spec (sections 4.3, 4.4): a send case of a selector on a
rendezvous channel is immediately satisfiable only when the channel is still
open and a receiver is waiting; a closed channel never satisfies a send case
(selection skips it, signaling no error through the selector). -/
def sendCaseReady (closed : Bool) (receiverWaiting : Bool) : Bool :=
  !closed && receiverWaiting

/-- State of the closeChannelInSelectTest scenario: whether sendCh has been
closed, receiveCh's pending rendezvous values, whether the send case's
callback ran, the value written by the receive case's callback, whether the
root returned, and a panic raised by a callback (if any). -/
structure CCState where
  sendChClosed : Bool
  receiveChBuf : List String
  sendCallbackRan : Bool
  v : String
  rootDone : Bool
  panicMsg : Option String
deriving DecidableEq

/-- The execution of closeChannelInSelectTest from the source: the root
registers a send case on sendCh and a receive case on receiveCh and blocks in
Select (neither case is satisfiable yet); the spawned coroutine closes sendCh
and then sends "expected value" on receiveCh, waking the selector; the root
re-evaluates the cases in registration order — the send case on the
now-closed channel never fires, the receive case fires and its callback
receives the value on the calling coroutine. -/
def closeChannelInSelectRun : CCState :=
  let s0 : CCState := ⟨false, [], false, "", false, none⟩
  let s1 : CCState := { s0 with sendChClosed := true }
  let s2 : CCState := { s1 with receiveChBuf := ["expected value"] }
  if sendCaseReady s2.sendChClosed false then
    { s2 with sendCallbackRan := true,
              panicMsg := some "callback for sendCh should not be executed" }
  else
    match s2.receiveChBuf with
    | [] => s2
    | w :: rest =>
      let s3 : CCState := { s2 with v := w, receiveChBuf := rest }
      if s3.v = "expected value" then { s3 with rootDone := true }
      else { s3 with panicMsg := some "callback for receiveCh is not executed" }

/-- Claim C10: a send case registered on a selector whose channel is closed
before select completes never fires: a closed channel never satisfies a send
case regardless of waiting receivers, and in the source scenario
(closeChannelInSelectTest) the send callback never runs, no error is signaled
through the selector, and the select completes via the receive case on the
other channel, whose callback receives the expected value. -/
theorem closed_send_case_never_fires (receiverWaiting : Bool) :
    sendCaseReady true receiverWaiting = false ∧
    closeChannelInSelectRun.sendCallbackRan = false ∧
    closeChannelInSelectRun.panicMsg = none ∧
    closeChannelInSelectRun.v = "expected value" ∧
    closeChannelInSelectRun.rootDone = true :=
  ⟨rfl, rfl, rfl, rfl, rfl⟩

end CadenceCore
